import Mathlib

/-!
Shallow embedding of the Support-AI tuition-centre chatbot:
the Google-Sheets scheduling layer (`src/lib/googleSheets.ts`), the
chat orchestration route (tool-calling loop), the RAG retrieval helper
and the knowledge-sync job, together with theorems settling the
spec claims about them.

External services (Google Sheets, Supabase, Gemini embeddings, the
DeepSeek chat-completion provider) are modelled as explicit function
parameters; the spreadsheet is modelled as a list of rows.  JavaScript
strings are modelled as Lean `String`, `undefined` as `Option`.
-/

/-! ## JavaScript string primitives used by the source -/

/-- Characters removed by JavaScript `String.prototype.trim` (ASCII whitespace
    suffices for the data handled by this program). -/
def isJsWhitespace (c : Char) : Bool :=
  c = ' ' || c = '\t' || c = '\n' || c = '\r' || c = '\x0b' || c = '\x0c'

/-- JavaScript `s.trim()`. -/
def jsTrim (s : String) : String :=
  ⟨((s.toList.dropWhile isJsWhitespace).reverse.dropWhile isJsWhitespace).reverse⟩

/-- JavaScript `s.toLowerCase()` (ASCII). -/
def jsToLowerCase (s : String) : String :=
  ⟨s.toList.map Char.toLower⟩

/-- Is the character a carriage return or line feed (the class `[\r\n]`)? -/
def isCRLF (c : Char) : Bool := c = '\r' || c = '\n'

/-- Helper for `collapseNewlineRuns`: the flag records whether the previous
    character was part of a CR/LF run already replaced by a space. -/
def collapseNewlineAux : Bool → List Char → List Char
  | _, [] => []
  | inRun, c :: rest =>
    if isCRLF c then
      (if inRun then [] else [' ']) ++ collapseNewlineAux true rest
    else c :: collapseNewlineAux false rest

/-- JavaScript `s.replace(/[\r\n]+/g, ' ')`: each maximal run of CR/LF
    characters becomes a single space. -/
def collapseNewlineRuns (l : List Char) : List Char :=
  collapseNewlineAux false l

/-- JavaScript `s.replace(/["']/g, '')`. -/
def removeQuoteChars (l : List Char) : List Char :=
  l.filter (fun c => !(c = '"' || c = '\''))

/-- Test of the regular expression `/^[=+\-]/`. -/
def startsWithFormulaChar (s : String) : Bool :=
  match s.toList with
  | [] => false
  | c :: _ => c = '=' || c = '+' || c = '-'

/-! ## `formatContactInfo` (src/lib/googleSheets.ts, lines 86-97) -/

/-- Embedding of `formatContactInfo`: trim; return `''` for blank input;
    collapse CR/LF runs to a single space, strip quote characters, trim
    again; prefix an apostrophe when the result starts with `=`, `+`
    or `-`. -/
def formatContactInfo (contactInfo : String) : String :=
  let trimmed := jsTrim contactInfo
  if trimmed = "" then ""
  else
    let sanitized := jsTrim ⟨removeQuoteChars (collapseNewlineRuns trimmed.toList)⟩
    if startsWithFormulaChar sanitized then "'" ++ sanitized
    else sanitized

/-- Modelled from the spec's words for claim C7, for comparison with the
    source's `formatContactInfo`: "trim; strip embedded newlines (collapse
    to a single space); strip quote characters; if the remaining text
    begins with `=`, `+`, or `-` ... prefix it with a neutralizing
    marker".  Note the spec's words mention no second trim after the
    quote stripping. -/
def contactInfoSpecLiteral (contactInfo : String) : String :=
  let remaining : String := ⟨removeQuoteChars (collapseNewlineRuns (jsTrim contactInfo).toList)⟩
  if startsWithFormulaChar remaining then "'" ++ remaining
  else remaining

/-- Amended spec sanitization for claim C7: same pipeline, but the text is
    trimmed again after the newline collapsing and quote stripping, before
    the formula-character check. -/
def contactInfoSpecAmended (contactInfo : String) : String :=
  let remaining := jsTrim ⟨removeQuoteChars (collapseNewlineRuns (jsTrim contactInfo).toList)⟩
  if startsWithFormulaChar remaining then "'" ++ remaining
  else remaining

/-! ## Scheduling-store data model (src/lib/googleSheets.ts) -/

/-- One data row of the `schedule` sheet.  `Option` models cells that the
    `row.get` accessor reports as `undefined`. -/
structure SheetRow where
  rowNumber : Nat
  date : Option String
  time : Option String
  subject : Option String
  teacher : Option String
  student_Name : Option String
  contact_Info : Option String
deriving DecidableEq, Repr

/-- The `SlotIdentifier` exported type: the natural key of a slot. -/
structure SlotIdentifier where
  date : String
  time : String
  subject : String
  teacher : String
deriving DecidableEq, Repr

/-- The `AvailabilitySlot` exported type: identifier plus row position. -/
structure AvailabilitySlot where
  rowNumber : Nat
  time : String
  teacher : String
  date : String
  subject : String
deriving DecidableEq, Repr

/-- Embedding of `normalizeValue`: `(value ?? '').trim()`. -/
def normalizeValue (value : Option String) : String :=
  jsTrim (value.getD "")

/-- Embedding of `normalizeSubject`: `normalizeValue(value).toLowerCase()`. -/
def normalizeSubject (value : Option String) : String :=
  jsToLowerCase (normalizeValue value)

/-- Embedding of `matchesSlot` (lines 107-114). -/
def matchesSlot (row : SheetRow) (slot : SlotIdentifier) : Bool :=
  normalizeValue row.date == normalizeValue (some slot.date) &&
  normalizeValue row.time == normalizeValue (some slot.time) &&
  normalizeSubject row.subject == normalizeSubject (some slot.subject) &&
  normalizeValue row.teacher == normalizeValue (some slot.teacher)

/-- The JavaScript truthiness/blank test used by `getAvailability`:
    `!studentName || studentName.trim() === ''`. -/
def studentNameBlank (studentName : Option String) : Bool :=
  match studentName with
  | none => true
  | some s => s == "" || jsTrim s == ""

/-- Embedding of `getAvailability` (lines 116-147).  The sheet is passed in
    as the list of its data rows; the date and subject arguments arrive
    from the route as possibly-`undefined` JSON fields. -/
def getAvailability (rows : List SheetRow) (date subject : Option String) :
    List AvailabilitySlot :=
  let normalizedDate := normalizeValue date
  let normalizedSubject := normalizeSubject subject
  let availableSlots := rows.filter (fun row =>
    normalizeValue row.date == normalizedDate &&
    normalizeSubject row.subject == normalizedSubject &&
    studentNameBlank row.student_Name)
  availableSlots.map (fun row =>
    { rowNumber := row.rowNumber
      time := normalizeValue row.time
      teacher := normalizeValue row.teacher
      date := normalizeValue row.date
      subject := normalizeValue row.subject })

/-- The JavaScript conflict test in `bookSlot`:
    `currentStudent && currentStudent.trim() !== ''`. -/
def studentNameTaken (currentStudent : Option String) : Bool :=
  match currentStudent with
  | none => false
  | some s => !(s == "") && !(jsTrim s == "")

/-- Update the first row matching the slot, as `rowToUpdate.set(...)` plus
    `save()` updates exactly the row object found by `rows.find`. -/
def writeBooking (slot : SlotIdentifier) (studentName contactInfo : String) :
    List SheetRow → List SheetRow
  | [] => []
  | r :: rest =>
    if matchesSlot r slot then
      { r with student_Name := some studentName
               contact_Info := some (formatContactInfo contactInfo) } :: rest
    else r :: writeBooking slot studentName contactInfo rest

/-- Embedding of `bookSlot` (lines 149-183): re-read the rows, locate the
    slot by natural key, fail when absent or already booked, otherwise
    write the student name and sanitized contact info. -/
def bookSlot (rows : List SheetRow) (slot : SlotIdentifier)
    (studentName contactInfo : String) : Except String (List SheetRow × String) :=
  match rows.find? (fun r => matchesSlot r slot) with
  | none =>
    .error ("Slot " ++ slot.date ++ " " ++ slot.time ++ " (" ++ slot.teacher ++ ") not found")
  | some rowToUpdate =>
    if studentNameTaken rowToUpdate.student_Name then
      .error ("Aiyo, someone just took this slot. Pick another time?")
    else
      .ok (writeBooking slot studentName contactInfo rows, "Done lah! See you.")

/-- Embedding of `addSlot` (lines 185-199): appends one row with blank
    student-name and contact-info cells.  New sheet rows are numbered after
    the header row (row 1) and the existing data rows. -/
def addSlot (rows : List SheetRow) (date time subject teacher : String) :
    List SheetRow × String :=
  (rows ++ [{ rowNumber := rows.length + 2
              date := some date
              time := some time
              subject := some subject
              teacher := some teacher
              student_Name := some ""
              contact_Info := some "" }],
   "Slot added successfully!")

/-! ## Calendar arithmetic for `createBatchSchedule`

`new Date("YYYY-MM-DD")` parses to UTC midnight; on the assumed UTC runtime,
`setDate(start.getDate() + i)` advances the date by `i` calendar days,
`getUTCDay` gives the weekday, and `toISOString().split('T')[0]` formats the
civil date back.  Dates are modelled as day counts since 0000-03-01 using
the standard civil-calendar conversion. -/

/-- Gregorian leap-year test. -/
def isLeapYear (y : Nat) : Bool :=
  (y % 4 = 0 && y % 100 ≠ 0) || y % 400 = 0

/-- Days in a month of the proleptic Gregorian calendar. -/
def daysInMonth (y m : Nat) : Nat :=
  if m = 2 then (if isLeapYear y then 29 else 28)
  else if m = 4 || m = 6 || m = 9 || m = 11 then 30
  else 31

/-- Day count of a civil date, measured from 0000-03-01 (valid for y ≥ 1). -/
def daysFromCivil (y m d : Nat) : Nat :=
  let yAdj := if m ≤ 2 then y - 1 else y
  let era := yAdj / 400
  let yoe := yAdj % 400
  let mp := if m ≤ 2 then m + 9 else m - 3
  let doy := (153 * mp + 2) / 5 + d - 1
  let doe := yoe * 365 + yoe / 4 - yoe / 100 + doy
  era * 146097 + doe

/-- Civil date (year, month, day) of a day count from 0000-03-01. -/
def civilFromDays (z : Nat) : Nat × Nat × Nat :=
  let era := z / 146097
  let doe := z % 146097
  let yoe := (doe - doe / 1460 + doe / 36524 - doe / 146096) / 365
  let y := yoe + era * 400
  let doy := doe - (365 * yoe + yoe / 4 - yoe / 100)
  let mp := (5 * doy + 2) / 153
  let d := doy - (153 * mp + 2) / 5 + 1
  let m := if mp < 10 then mp + 3 else mp - 9
  (if m ≤ 2 then y + 1 else y, m, d)

/-- JavaScript `getUTCDay`: 0 = Sunday … 6 = Saturday.  Day 719468 of this
    epoch is 1970-01-01, a Thursday (4). -/
def jsDayOfWeek (z : Nat) : Nat := (z + 3) % 7

/-- The weekend test of `createBatchSchedule`: `dayOfWeek === 0 || dayOfWeek === 6`. -/
def isWeekend (z : Nat) : Bool := jsDayOfWeek z = 0 || jsDayOfWeek z = 6

/-- Zero-pad a number to two digits, as in an ISO date string. -/
def pad2 (n : Nat) : String :=
  if n < 10 then "0" ++ toString n else toString n

/-- Zero-pad a year to four digits, as in an ISO date string. -/
def pad4 (n : Nat) : String :=
  if n < 10 then "000" ++ toString n
  else if n < 100 then "00" ++ toString n
  else if n < 1000 then "0" ++ toString n
  else toString n

/-- JavaScript `date.toISOString().split('T')[0]` for a day count. -/
def formatDay (z : Nat) : String :=
  match civilFromDays z with
  | (y, m, d) => pad4 y ++ "-" ++ pad2 m ++ "-" ++ pad2 d

/-- Split a character list at `-` separators (the semantics of
    `split('-')` on the date string). -/
def splitOnDash : List Char → List (List Char)
  | [] => [[]]
  | c :: rest =>
    match splitOnDash rest with
    | [] => if c = '-' then [[], [c]] else [[c]]
    | g :: gs => if c = '-' then [] :: g :: gs else (c :: g) :: gs

/-- Parse a nonempty all-digit character group as a decimal number. -/
def digitsToNat : List Char → Nat → Option Nat
  | [], acc => some acc
  | c :: rest, acc =>
    if 48 ≤ c.toNat && c.toNat ≤ 57 then digitsToNat rest (acc * 10 + (c.toNat - 48))
    else none

/-- Parse of a strict `YYYY-MM-DD` string to a day count, modelling the ISO
    path of the `new Date(string)` constructor; other inputs give an
    invalid date (`none`). -/
def parseDate (s : String) : Option Nat :=
  match splitOnDash s.toList with
  | [ys, ms, ds] =>
    match digitsToNat ys 0, digitsToNat ms 0, digitsToNat ds 0 with
    | some y, some m, some d =>
      if ys.length = 4 && ms.length = 2 && ds.length = 2 &&
         1 ≤ y && 1 ≤ m && m ≤ 12 && 1 ≤ d && d ≤ daysInMonth y m then
        some (daysFromCivil y m d)
      else none
    | _, _, _ => none
  | _ => none

/-- The row data generated by the loop of `createBatchSchedule`
    (lines 208-230): for each non-weekend day, one row per hour from
    10:00 up to and excluding 18:00. -/
structure NewRowData where
  date : String
  time : String
  subject : String
  teacher : String
deriving DecidableEq, Repr

/-- The `rowsToAdd` list built by `createBatchSchedule` when the start date
    parsed to day count `d0`. -/
def batchRows (d0 days : Nat) (subject teacher : String) : List NewRowData :=
  (List.range days).flatMap (fun i =>
    if isWeekend (d0 + i) then []
    else (List.range 8).map (fun h =>
      { date := formatDay (d0 + i)
        time := toString (10 + h) ++ ":00"
        subject := subject
        teacher := teacher }))

/-- Bulk append of new rows, as the single `sheet.addRows(rowsToAdd)` call. -/
def appendRows (rows : List SheetRow) (rowsToAdd : List NewRowData) : List SheetRow :=
  rows ++ rowsToAdd.mapIdx (fun i r =>
    { rowNumber := rows.length + 2 + i
      date := some r.date
      time := some r.time
      subject := some r.subject
      teacher := some r.teacher
      student_Name := some ""
      contact_Info := some "" })

/-- The success message of `createBatchSchedule`. -/
def batchMessage (n : Nat) (startDate : String) : String :=
  "Added " ++ toString n ++ " slots starting from " ++ startDate ++ " (Mon-Fri only, 10am-6pm)."

/-- Embedding of `createBatchSchedule` (lines 201-237).  An unparseable
    start date yields a NaN-valued `Date`; the weekend check then never
    skips and the first `toISOString()` call throws a RangeError — unless
    `days` is zero, in which case the loop body never runs. -/
def createBatchSchedule (rows : List SheetRow) (startDate : String) (days : Nat)
    (subject teacher : String) : Except String (List SheetRow × String) :=
  match parseDate startDate with
  | none =>
    if days = 0 then .ok (rows, batchMessage 0 startDate)
    else .error ("Invalid time value")
  | some d0 =>
    let rowsToAdd := batchRows d0 days subject teacher
    .ok (appendRows rows rowsToAdd, batchMessage rowsToAdd.length startDate)

/-! ## Chat orchestration route (src/unnamed/part_003) -/

/-- The argument payload of a tool invocation after `JSON.parse`; absent
    JSON fields are `none`. -/
structure ToolArgs where
  date : Option String := none
  time : Option String := none
  subject : Option String := none
  teacher : Option String := none
  studentName : Option String := none
  contactInfo : Option String := none
  adminPassword : Option String := none
  startDate : Option String := none
  days : Option Int := none
deriving DecidableEq, Repr

/-- The `function` field of a tool call: name and parsed arguments. -/
structure FunctionCall where
  name : String
  args : ToolArgs
deriving DecidableEq, Repr

/-- One requested tool invocation from the provider. -/
structure ToolCall where
  id : String
  type : String
  function : Option FunctionCall
deriving DecidableEq, Repr

/-- A chat-completion response message; `tool_calls` is `none` when the
    provider requests no tools (an empty list is still a request set and
    keeps the loop running, as an empty array is truthy). -/
structure ProviderResponse where
  content : Option String := none
  tool_calls : Option (List ToolCall) := none
deriving DecidableEq, Repr

/-- The serialized payload of one tool-result message.  `undef` models the
    `result` variable never being assigned (unknown tool name). -/
inductive ToolResult where
  | slots (l : List AvailabilitySlot)
  | success (message : String)
  | error (message : String)
  | undef
deriving DecidableEq, Repr

/-- One entry of the conversation history threaded through the loop. -/
inductive Msg where
  | system (content : String)
  | user (content : String)
  | assistant (message : ProviderResponse)
  | tool (tool_call_id : String) (content : ToolResult)
deriving DecidableEq, Repr

/-- JavaScript `String(x)` applied to a possibly-absent JSON string field. -/
def jsString (v : Option String) : String :=
  match v with
  | some s => s
  | none => "undefined"

/-- JavaScript `Number(x)` cast to the loop bound of `createBatchSchedule`:
    an absent field gives NaN and a negative number gives a loop that never
    runs, both yielding zero iterations. -/
def jsDays (v : Option Int) : Nat :=
  match v with
  | some n => n.toNat
  | none => 0

/-- The `SlotIdentifier` the route builds from the parsed `bookSlot`
    arguments via `String(...)` casts. -/
def bookSlotIdentifier (args : ToolArgs) : SlotIdentifier :=
  { date := jsString args.date
    time := jsString args.time
    subject := jsString args.subject
    teacher := jsString args.teacher }

/-- Embedding of one iteration of the `for (const toolCall of toolCalls)`
    body (lines 167-229): dispatch by function name with the per-call
    try/catch, returning the updated store and the tool message content
    (`none` when the call is skipped by `continue`). -/
def executeToolCall (adminPassword : Option String) (store : List SheetRow)
    (tc : ToolCall) : List SheetRow × Option ToolResult :=
  if tc.type ≠ "function" then (store, none)
  else
    match tc.function with
    | none => (store, none)
    | some f =>
      let args := f.args
      if f.name = "getAvailability" then
        (store, some (.slots (getAvailability store args.date args.subject)))
      else if f.name = "bookSlot" then
        let slot := bookSlotIdentifier args
        match bookSlot store slot (jsString args.studentName) (jsString args.contactInfo) with
        | .ok (store', msg) => (store', some (.success msg))
        | .error e => (store, some (.error e))
      else if f.name = "addSlot" then
        if args.adminPassword ≠ adminPassword then
          (store, some (.error ("Invalid admin password. Cannot add slot.")))
        else
          let (store', msg) := addSlot store (jsString args.date) (jsString args.time)
            (jsString args.subject) (jsString args.teacher)
          (store', some (.success msg))
      else if f.name = "createBatchSchedule" then
        if args.adminPassword ≠ adminPassword then
          (store, some (.error ("Invalid admin password. Cannot create schedule.")))
        else
          match createBatchSchedule store (jsString args.startDate) (jsDays args.days)
              (jsString args.subject) (jsString args.teacher) with
          | .ok (store', msg) => (store', some (.success msg))
          | .error e => (store, some (.error e))
      else (store, some .undef)

/-- Execute all tool calls of one assistant turn in order, collecting the
    `tool` messages appended to the history. -/
def execToolCalls (adminPassword : Option String) (store : List SheetRow)
    (toolCalls : List ToolCall) : List SheetRow × List Msg :=
  toolCalls.foldl (fun acc tc =>
    let (store', res) := executeToolCall adminPassword acc.1 tc
    match res with
    | none => (store', acc.2)
    | some r => (store', acc.2 ++ [Msg.tool tc.id r])) (store, [])

/-- The `while (message.tool_calls && loopCount < 5)` loop (lines 159-240),
    with `fuel = 5 - loopCount`.  The final `Nat` counts every
    chat-completion-provider call made so far. -/
def toolLoop (provider : List Msg → ProviderResponse) (adminPassword : Option String) :
    Nat → List Msg → ProviderResponse → List SheetRow → Nat →
    ProviderResponse × List SheetRow × Nat
  | 0, _, message, store, calls => (message, store, calls)
  | fuel + 1, currentMessages, message, store, calls =>
    match message.tool_calls with
    | none => (message, store, calls)
    | some toolCalls =>
      let msgs1 := currentMessages ++ [Msg.assistant message]
      let (store', toolMsgs) := execToolCalls adminPassword store toolCalls
      let msgs2 := msgs1 ++ toolMsgs
      let response := provider msgs2
      toolLoop provider adminPassword fuel msgs2 response store' (calls + 1)

/-- The system-prompt template of the route, instantiated with the current
    time string and the retrieved knowledge context. -/
def systemPrompt (context now : String) : String :=
  "You are a helpful assistant for a Tuition Centre. Keep answers SHORT, CLEAR, and SIMPLE. " ++
  "You primarily help STUDENTS check availability and book slots. " ++
  "RESTRICTED ACTIONS: addSlot and createBatchSchedule are for ADMINS ONLY. " ++
  "NEVER output the admin password yourself. Today is " ++ now ++
  ". Knowledge Base Context: " ++ context

/-! ## Knowledge retrieval (src/unnamed/part_000, `retrieveContext`) -/

/-- A document returned by the `match_documents` vector query. -/
structure MatchDoc where
  content : String
deriving DecidableEq, Repr

/-- Embedding of `retrieveContext`: embed the query (a thrown embedding
    error is caught by the surrounding try/catch), query the store with
    the fixed similarity threshold 0.5 and match count 3, and return ""
    on a store error or zero matches, else the contents joined by blank
    lines.  The embedding provider and the store RPC are passed in as
    fallible functions. -/
def retrieveContext (embedContent : String → Except String (List Int))
    (matchDocuments : List Int → Rat → Nat → Except String (List MatchDoc))
    (query : String) : String :=
  match embedContent query with
  | .error _ => ""
  | .ok embedding =>
    match matchDocuments embedding (1 / 2 : Rat) 3 with
    | .error _ => ""
    | .ok data =>
      if data.isEmpty then ""
      else String.intercalate "\n\n" (data.map MatchDoc.content)

/-! ## The chat entry point `POST` (src/unnamed/part_003, lines 12-248) -/

/-- Embedding of the chat route `POST` handler.  The DeepSeek client is the
    `provider` function; `now` stands for `new Date().toISOString()`.  The
    result is the final assistant message, the resulting store and the total
    number of provider calls issued, or the top-level error response with
    its HTTP status. -/
def chatPOST (provider : List Msg → ProviderResponse) (adminPassword : Option String)
    (embedContent : String → Except String (List Int))
    (matchDocuments : List Int → Rat → Nat → Except String (List MatchDoc))
    (now : String) (store : List SheetRow) (messages : List Msg) :
    Except (String × Nat) (ProviderResponse × List SheetRow × Nat) :=
  match messages.getLast? with
  | none => .error ("No messages provided", 500)
  | some lastMessage =>
    let context :=
      match lastMessage with
      | .user userContent =>
        if userContent = "" then ""
        else retrieveContext embedContent matchDocuments userContent
      | _ => ""
    let currentMessages := Msg.system (systemPrompt context now) :: messages
    let response := provider currentMessages
    .ok (toolLoop provider adminPassword 5 currentMessages response store 1)

/-- Number of provider calls recorded in a `chatPOST` result (0 when the
    request was rejected before any provider call). -/
def callsOf (r : Except (String × Nat) (ProviderResponse × List SheetRow × Nat)) : Nat :=
  match r with
  | .error _ => 0
  | .ok (_, _, n) => n

/-! ## Knowledge sync job (src/app/api/sync/route.ts, `GET`) -/

/-- A question/answer pair from the `knowledge` sheet. -/
structure KnowledgeBaseEntry where
  question : String
  answer : String
deriving DecidableEq, Repr

/-- The document text `Q: ...\nA: ...` built for each pair. -/
def syncContent (item : KnowledgeBaseEntry) : String :=
  "Q: " ++ item.question ++ "\n" ++ "A: " ++ item.answer

/-- Embedding of the per-item loop of the sync `GET` (lines 33-55).
    `embedContent` returns the optional `values` of a successful embedding
    response, or an error for a thrown one — which propagates, since the
    loop has no per-item catch.  `insertDocument` returns the Supabase
    error of an insert, or `none` on success; an insert error is logged
    and skipped.  The accumulator is the running success count. -/
def syncLoop (embedContent : String → Except String (Option (List Int)))
    (insertDocument : String → List Int → String → Option String) :
    List KnowledgeBaseEntry → Nat → Except String Nat
  | [], count => .ok count
  | item :: rest, count =>
    if item.question = "" || item.answer = "" then
      syncLoop embedContent insertDocument rest count
    else
      match embedContent (syncContent item) with
      | .error e => .error e
      | .ok values =>
        let embedding := values.getD []
        match insertDocument (syncContent item) embedding item.question with
        | some _ => syncLoop embedContent insertDocument rest count
        | none => syncLoop embedContent insertDocument rest (count + 1)

/-- Embedding of the sync route `GET` handler (lines 13-66).  The initial
    delete of previously indexed entries may fail; its error is only
    logged (`deleteError`), never fatal.  A thrown embedding error reaches
    the outer catch and becomes a 500 response. -/
def syncGET (knowledge : List KnowledgeBaseEntry) (deleteError : Option String)
    (embedContent : String → Except String (Option (List Int)))
    (insertDocument : String → List Int → String → Option String) :
    Except (String × Nat) String :=
  match deleteError with
  | _ =>
    if knowledge.isEmpty then .ok ("No knowledge found in Google Sheets.")
    else
      match syncLoop embedContent insertDocument knowledge 0 with
      | .ok count =>
        .ok ("Successfully synced " ++ toString count ++ " items from Google Sheets to Supabase.")
      | .error e => .error (e, 500)

/-- The number of pairs the sync loop successfully inserts when every
    embedding call returns (insert calls may still fail and be skipped). -/
def syncSuccessCount (embedValues : String → Option (List Int))
    (insertDocument : String → List Int → String → Option String)
    (knowledge : List KnowledgeBaseEntry) : Nat :=
  (knowledge.filter (fun item =>
    !(item.question = "" || item.answer = "") &&
    (insertDocument (syncContent item) ((embedValues (syncContent item)).getD [])
        item.question).isNone)).length

/-! ## Credential loading (src/lib/googleSheets.ts, lines 46-57) -/

/-- The parsed service-account credentials. -/
structure ServiceAccountCredentials where
  client_email : String
  private_key : String
deriving DecidableEq, Repr

/-- Embedding of the module-initialization credential lookup: the
    environment JSON wins, else the `service-account.json` file, else the
    module throws a descriptive error at load time (first use). -/
def loadCreds (envJson fileJson : Option ServiceAccountCredentials) :
    Except String ServiceAccountCredentials :=
  match envJson with
  | some c => .ok c
  | none =>
    match fileJson with
    | some c => .ok c
    | none =>
      .error ("Credentials missing: Set GOOGLE_SERVICE_ACCOUNT_JSON or create service-account.json")

/-! ## Helper lemmas -/

/-- The route's blank test agrees with "student-name blank after trimming". -/
theorem studentNameBlank_iff (v : Option String) :
    studentNameBlank v = true ↔ normalizeValue v = "" := by
  cases v with
  | none => simp [studentNameBlank, normalizeValue]; rfl
  | some s =>
    by_cases hs : s = ""
    · subst hs; simp [studentNameBlank, normalizeValue]; rfl
    · simp [studentNameBlank, normalizeValue, hs]

/-- The conflict test of `bookSlot` agrees with "student-name non-blank
    after trimming". -/
theorem studentNameTaken_iff (v : Option String) :
    studentNameTaken v = true ↔ normalizeValue v ≠ "" := by
  cases v with
  | none => simp [studentNameTaken, normalizeValue]; rfl
  | some s =>
    by_cases hs : s = ""
    · subst hs; simp [studentNameTaken, normalizeValue]; rfl
    · simp [studentNameTaken, normalizeValue, hs]

/-! ## Claim C7 — contact-info sanitization -/

/-- Claim C7 counterexample: on input `"' =1"` the stored value is not the
    spec's literal "trim, collapse newlines, strip quotes, mark formulas"
    pipeline.  The code trims once more after stripping the quote, so the
    leading space left behind by the removed apostrophe disappears and the
    value is then treated as formula-like: the code stores `"'=1"` while
    the claim's pipeline yields `" =1"`. -/
theorem formatContactInfo_not_spec_literal :
    ¬ (formatContactInfo ("' =1") = contactInfoSpecLiteral ("' =1")) := by
  decide

/-- Claim C7 (amended): the stored contact info is the trimmed input with
    CR/LF runs collapsed to a single space and quote characters removed,
    trimmed again, and prefixed with the apostrophe marker when the
    remaining text begins with `=`, `+` or `-`; already-safe input is
    stored trimmed and otherwise unchanged. -/
theorem formatContactInfo_eq_specAmended (contactInfo : String) :
    formatContactInfo contactInfo = contactInfoSpecAmended contactInfo := by
  unfold formatContactInfo contactInfoSpecAmended
  by_cases h : jsTrim contactInfo = ""
  · rw [h]
    rfl
  · simp only [h, if_neg, ite_false]

/-! ## Claim C4 — `getAvailability` filter -/

/-- Claim C4: a slot is returned by `getAvailability` exactly when some
    stored row has the requested date (exact match after trimming both
    sides), the requested subject (case-insensitive after trimming) and a
    blank student-name field after trimming, and the returned slot is that
    row's data (trimmed) with its row position.  The function is total, so
    an empty list is a valid non-error result. -/
theorem getAvailability_returns_exactly_matching (rows : List SheetRow)
    (date subject : String) (a : AvailabilitySlot) :
    a ∈ getAvailability rows (some date) (some subject) ↔
      ∃ row ∈ rows,
        normalizeValue row.date = jsTrim date ∧
        jsToLowerCase (jsTrim (row.subject.getD "")) = jsToLowerCase (jsTrim subject) ∧
        jsTrim (row.student_Name.getD "") = "" ∧
        a = { rowNumber := row.rowNumber
              time := normalizeValue row.time
              teacher := normalizeValue row.teacher
              date := normalizeValue row.date
              subject := normalizeValue row.subject } := by
  simp only [getAvailability, List.mem_map, List.mem_filter]
  constructor
  · rintro ⟨row, ⟨hmem, hcond⟩, rfl⟩
    rw [Bool.and_eq_true, Bool.and_eq_true, beq_iff_eq, beq_iff_eq] at hcond
    obtain ⟨⟨hdate, hsubj⟩, hblank⟩ := hcond
    exact ⟨row, hmem, hdate, hsubj, (studentNameBlank_iff _).mp hblank, rfl⟩
  · rintro ⟨row, hmem, hdate, hsubj, hblank, rfl⟩
    refine ⟨row, ⟨hmem, ?_⟩, rfl⟩
    rw [Bool.and_eq_true, Bool.and_eq_true, beq_iff_eq, beq_iff_eq]
    exact ⟨⟨hdate, hsubj⟩, (studentNameBlank_iff _).mpr hblank⟩

/-! ## Claim C3 — `bookSlot` conflict on booked slots -/

/-- Claim C3: when the row located at the re-read performed by `bookSlot`
    has a student-name field that is non-blank after trimming, the call
    fails with the conflict error, and the tool dispatcher leaves the
    store exactly as it was — the existing booking is never overwritten. -/
theorem bookSlot_conflict_preserves_store (adminPassword : Option String)
    (store : List SheetRow) (tcId : String) (args : ToolArgs) (row : SheetRow)
    (hfind : store.find? (fun r => matchesSlot r (bookSlotIdentifier args)) = some row)
    (hbooked : normalizeValue row.student_Name ≠ "") :
    bookSlot store (bookSlotIdentifier args) (jsString args.studentName)
        (jsString args.contactInfo)
      = .error ("Aiyo, someone just took this slot. Pick another time?") ∧
    executeToolCall adminPassword store
        { id := tcId, type := "function", function := some { name := "bookSlot", args := args } }
      = (store, some (.error ("Aiyo, someone just took this slot. Pick another time?"))) := by
  have htaken : studentNameTaken row.student_Name = true :=
    (studentNameTaken_iff _).mpr hbooked
  have hbook : bookSlot store (bookSlotIdentifier args) (jsString args.studentName)
      (jsString args.contactInfo)
      = .error ("Aiyo, someone just took this slot. Pick another time?") := by
    simp [bookSlot, hfind, htaken]
  refine ⟨hbook, ?_⟩
  simp [executeToolCall, hbook]

/-- Witness for claim C3 at a concrete booked slot. -/
theorem bookSlot_conflict_preserves_store_witness :
    bookSlot
        [{ rowNumber := 2, date := some ("2025-06-02"), time := some ("10:00"),
           subject := some ("Math"), teacher := some ("Tan"),
           student_Name := some ("Alice"), contact_Info := some ("alice@x.sg") }]
        (bookSlotIdentifier
          { date := some ("2025-06-02"), time := some ("10:00"),
            subject := some ("math"), teacher := some ("Tan"),
            studentName := some ("Bob"), contactInfo := some ("bob@x.sg") })
        (jsString (some ("Bob"))) (jsString (some ("bob@x.sg")))
      = .error ("Aiyo, someone just took this slot. Pick another time?") ∧
    executeToolCall (some ("secret"))
        [{ rowNumber := 2, date := some ("2025-06-02"), time := some ("10:00"),
           subject := some ("Math"), teacher := some ("Tan"),
           student_Name := some ("Alice"), contact_Info := some ("alice@x.sg") }]
        { id := "call_1", type := "function",
          function := some { name := "bookSlot",
                             args := { date := some ("2025-06-02"), time := some ("10:00"),
                                       subject := some ("math"), teacher := some ("Tan"),
                                       studentName := some ("Bob"),
                                       contactInfo := some ("bob@x.sg") } } }
      = ([{ rowNumber := 2, date := some ("2025-06-02"), time := some ("10:00"),
            subject := some ("Math"), teacher := some ("Tan"),
            student_Name := some ("Alice"), contact_Info := some ("alice@x.sg") }],
         some (.error ("Aiyo, someone just took this slot. Pick another time?"))) :=
  bookSlot_conflict_preserves_store (some ("secret"))
    [{ rowNumber := 2, date := some ("2025-06-02"), time := some ("10:00"),
       subject := some ("Math"), teacher := some ("Tan"),
       student_Name := some ("Alice"), contact_Info := some ("alice@x.sg") }]
    ("call_1")
    { date := some ("2025-06-02"), time := some ("10:00"),
      subject := some ("math"), teacher := some ("Tan"),
      studentName := some ("Bob"), contactInfo := some ("bob@x.sg") }
    { rowNumber := 2, date := some ("2025-06-02"), time := some ("10:00"),
      subject := some ("Math"), teacher := some ("Tan"),
      student_Name := some ("Alice"), contact_Info := some ("alice@x.sg") }
    (by decide) (by decide)

/-! ## Claim C6 — wrong admin password -/

/-- Claim C6: whenever the configured admin secret exists and the supplied
    `adminPassword` argument differs from it (any wrong string, including
    the empty string, or an omitted field), both restricted tools perform
    no store mutation and produce a fixed authorization-error payload that
    is a constant string, independent of — and so never revealing — the
    configured secret. -/
theorem restricted_tools_reject_wrong_password (secret : String)
    (store : List SheetRow) (idA idB : String) (args : ToolArgs)
    (hwrong : args.adminPassword ≠ some secret) :
    executeToolCall (some secret) store
        { id := idA, type := "function", function := some { name := "addSlot", args := args } }
      = (store, some (.error ("Invalid admin password. Cannot add slot."))) ∧
    executeToolCall (some secret) store
        { id := idB, type := "function",
          function := some { name := "createBatchSchedule", args := args } }
      = (store, some (.error ("Invalid admin password. Cannot create schedule.")))
      := by
  constructor <;> simp [executeToolCall, hwrong]

/-- Witness for claim C6: the empty-string password against the configured
    secret is rejected by both restricted tools with no store change. -/
theorem restricted_tools_reject_wrong_password_witness :
    executeToolCall (some ("tuition-secret")) []
        { id := "a", type := "function",
          function := some { name := "addSlot", args := { adminPassword := some ("") } } }
      = ([], some (.error ("Invalid admin password. Cannot add slot."))) ∧
    executeToolCall (some ("tuition-secret")) []
        { id := "b", type := "function",
          function := some { name := "createBatchSchedule",
                             args := { adminPassword := some ("") } } }
      = ([], some (.error ("Invalid admin password. Cannot create schedule."))) :=
  restricted_tools_reject_wrong_password ("tuition-secret") [] ("a") ("b")
    { adminPassword := some ("") } (by decide)

/-! ## Claim C10 — missing credentials -/

/-- Claim C10 counterexample: with the admin secret unconfigured
    (`ADMIN_PASSWORD` absent) and the `adminPassword` field omitted from
    the tool arguments, the `undefined !== undefined` comparison succeeds,
    so `addSlot` is authorized and the store is mutated — there is no
    configuration failure at first use, contradicting the claim that the
    restricted tools never authorize a caller when the secret is
    unconfigured. -/
theorem admin_secret_unconfigured_authorizes :
    executeToolCall none []
        { id := "call_1", type := "function",
          function := some { name := "addSlot",
                             args := { date := some ("2025-06-02"), time := some ("10:00"),
                                       subject := some ("Math"), teacher := some ("Tan") } } }
      = ([{ rowNumber := 2, date := some ("2025-06-02"), time := some ("10:00"),
            subject := some ("Math"), teacher := some ("Tan"),
            student_Name := some (""), contact_Info := some ("") }],
         some (.success ("Slot added successfully!"))) := by
  decide

/-- Claim C10 (amended): absence of the scheduling-store service-account
    credentials fails at first use (module load) with the descriptive
    error; the admin secret, however, is never checked for presence — when
    it is unconfigured, a restricted call that supplies any string
    password is rejected, but a call omitting the password field is
    authorized and the mutation executes. -/
theorem credentials_failfast_but_admin_secret_unchecked :
    (loadCreds none none
      = .error ("Credentials missing: Set GOOGLE_SERVICE_ACCOUNT_JSON or create service-account.json")) ∧
    (∀ (store : List SheetRow) (tcId : String) (args : ToolArgs) (pw : String),
      args.adminPassword = some pw →
      executeToolCall none store
          { id := tcId, type := "function", function := some { name := "addSlot", args := args } }
        = (store, some (.error ("Invalid admin password. Cannot add slot.")))) ∧
    (∀ (store : List SheetRow) (tcId : String) (args : ToolArgs),
      args.adminPassword = none →
      executeToolCall none store
          { id := tcId, type := "function", function := some { name := "addSlot", args := args } }
        = ((addSlot store (jsString args.date) (jsString args.time) (jsString args.subject)
              (jsString args.teacher)).1,
           some (.success ("Slot added successfully!")))) := by
  refine ⟨rfl, ?_, ?_⟩
  · intro store tcId args pw hpw
    simp [executeToolCall, hpw]
  · intro store tcId args hpw
    simp [executeToolCall, hpw, addSlot]

/-- Witness for claim C10 (amended) at concrete inputs: a supplied empty
    password is rejected while an omitted one is authorized when the
    secret is unconfigured. -/
theorem credentials_failfast_witness :
    (loadCreds none none
      = .error ("Credentials missing: Set GOOGLE_SERVICE_ACCOUNT_JSON or create service-account.json")) ∧
    executeToolCall none []
        { id := "w1", type := "function",
          function := some { name := "addSlot", args := { adminPassword := some ("") } } }
      = ([], some (.error ("Invalid admin password. Cannot add slot."))) ∧
    executeToolCall none []
        { id := "w2", type := "function",
          function := some { name := "addSlot",
                             args := { date := some ("2025-06-02"), time := some ("10:00"),
                                       subject := some ("Math"), teacher := some ("Tan") } } }
      = ((addSlot [] (jsString (some ("2025-06-02"))) (jsString (some ("10:00")))
            (jsString (some ("Math"))) (jsString (some ("Tan")))).1,
         some (.success ("Slot added successfully!"))) :=
  ⟨credentials_failfast_but_admin_secret_unchecked.1,
   credentials_failfast_but_admin_secret_unchecked.2.1 [] ("w1")
     { adminPassword := some ("") } ("") rfl,
   credentials_failfast_but_admin_secret_unchecked.2.2 [] ("w2")
     { date := some ("2025-06-02"), time := some ("10:00"),
       subject := some ("Math"), teacher := some ("Tan") } rfl⟩

/-! ## Claims C1 and C2 — the tool-calling loop -/

/-- The loop adds at most `fuel` provider calls to the running count. -/
theorem toolLoop_calls_le (provider : List Msg → ProviderResponse)
    (adminPassword : Option String) :
    ∀ (fuel : Nat) (msgs : List Msg) (message : ProviderResponse)
      (store : List SheetRow) (calls : Nat),
      (toolLoop provider adminPassword fuel msgs message store calls).2.2 ≤ calls + fuel := by
  intro fuel
  induction fuel with
  | zero => intro msgs message store calls; simp [toolLoop]
  | succ n ih =>
    intro msgs message store calls
    cases htc : message.tool_calls with
    | none => simp [toolLoop, htc]
    | some toolCalls =>
      simp only [toolLoop, htc]
      calc (toolLoop provider adminPassword n _ _ _ (calls + 1)).2.2
          ≤ (calls + 1) + n := ih _ _ _ _
        _ ≤ calls + (n + 1) := by omega

/-- Claim C1 (amended): a single chat request issues at most 6 provider
    calls in total — the initial call plus at most 5 rounds of the
    tool-execution loop — for every provider behaviour, store, retrieval
    outcome and message history. -/
theorem chatPOST_at_most_six_provider_calls (provider : List Msg → ProviderResponse)
    (adminPassword : Option String) (embedContent : String → Except String (List Int))
    (matchDocuments : List Int → Rat → Nat → Except String (List MatchDoc))
    (now : String) (store : List SheetRow) (messages : List Msg) :
    callsOf (chatPOST provider adminPassword embedContent matchDocuments now store messages)
      ≤ 6 := by
  cases hlast : messages.getLast? with
  | none => simp [chatPOST, hlast, callsOf]
  | some lastMessage =>
    simp only [chatPOST, hlast, callsOf]
    exact toolLoop_calls_le provider adminPassword 5 _ _ store 1

/-- Claim C1 counterexample: a provider that always requests a tool
    invocation drives the route to 6 provider calls on a single request —
    one initial call plus 5 loop rounds — exceeding the claimed total
    ceiling of 5. -/
theorem chatPOST_six_calls_reached :
    5 < callsOf (chatPOST
      (fun _ => { content := none,
                  tool_calls := some [{ id := "t", type := "noop", function := none }] })
      none (fun _ => .error ("embedding down")) (fun _ _ _ => .error ("store down"))
      ("2025-06-02T00:00:00.000Z") [] [Msg.user ("hi")]) := by
  decide

/-- When every provider response requests tools, the loop consumes all its
    fuel and ends holding the response of the last provider call. -/
theorem toolLoop_exhausts_fuel (provider : List Msg → ProviderResponse)
    (adminPassword : Option String)
    (hprov : ∀ h, ((provider h).tool_calls).isSome = true) :
    ∀ (fuel : Nat) (msgs : List Msg) (store : List SheetRow) (calls : Nat)
      (hist : List Msg),
      ∃ hist' store',
        toolLoop provider adminPassword fuel msgs (provider hist) store calls
          = (provider hist', store', calls + fuel) := by
  intro fuel
  induction fuel with
  | zero =>
    intro msgs store calls hist
    exact ⟨hist, store, by simp [toolLoop]⟩
  | succ n ih =>
    intro msgs store calls hist
    obtain ⟨toolCalls, htc⟩ := Option.isSome_iff_exists.mp (hprov hist)
    simp only [toolLoop, htc]
    obtain ⟨hist', store', heq⟩ :=
      ih (msgs ++ [Msg.assistant (provider hist)] ++
          (execToolCalls adminPassword store toolCalls).2)
        (execToolCalls adminPassword store toolCalls).1 (calls + 1)
        (msgs ++ [Msg.assistant (provider hist)] ++
          (execToolCalls adminPassword store toolCalls).2)
    refine ⟨hist', store', ?_⟩
    have harith : calls + 1 + n = calls + (n + 1) := by omega
    rw [← harith, ← heq]

/-- Claim C2: with a provider that never stops requesting tools, the loop
    still terminates once the iteration counter reaches the ceiling of 5
    (6 provider calls in total), and the route returns the last provider
    response as the final message even though it still requests tools. -/
theorem chatPOST_ceiling_returns_last_response (provider : List Msg → ProviderResponse)
    (adminPassword : Option String) (embedContent : String → Except String (List Int))
    (matchDocuments : List Int → Rat → Nat → Except String (List MatchDoc))
    (now : String) (store : List SheetRow) (messages : List Msg) (lastMessage : Msg)
    (hprov : ∀ h, ((provider h).tool_calls).isSome = true) :
    ∃ hist finalStore,
      chatPOST provider adminPassword embedContent matchDocuments now store
          (messages ++ [lastMessage])
        = .ok (provider hist, finalStore, 6) ∧
      ((provider hist).tool_calls).isSome = true := by
  have hlast : (messages ++ [lastMessage]).getLast? = some lastMessage := by
    simp
  simp only [chatPOST, hlast]
  obtain ⟨hist', store', heq⟩ :=
    toolLoop_exhausts_fuel provider adminPassword hprov 5 _ store 1 _
  exact ⟨hist', store', by rw [heq], hprov hist'⟩

/-- Witness for claim C2: a provider that always returns a (truthy, empty)
    tool-call array reaches the ceiling; the final message still carries
    tool calls and 6 provider calls were made. -/
theorem chatPOST_ceiling_witness :
    ∃ finalStore,
      chatPOST (fun _ => { content := some ("ok"), tool_calls := some [] }) none
          (fun _ => .error ("embedding down")) (fun _ _ _ => .error ("store down"))
          ("2025-06-02T00:00:00.000Z") [] ([] ++ [Msg.user ("hi")])
        = .ok ({ content := some ("ok"), tool_calls := some [] }, finalStore, 6) ∧
      (({ content := some ("ok"), tool_calls := some [] } : ProviderResponse)).tool_calls.isSome
        = true := by
  obtain ⟨hist, finalStore, heq, hsome⟩ :=
    chatPOST_ceiling_returns_last_response
      (fun _ => { content := some ("ok"), tool_calls := some [] }) none
      (fun _ => .error ("embedding down")) (fun _ _ _ => .error ("store down"))
      ("2025-06-02T00:00:00.000Z") [] [] (Msg.user ("hi")) (fun _ => rfl)
  exact ⟨finalStore, heq, hsome⟩

/-! ## Claim C5 — `createBatchSchedule` -/

/-- Each included day contributes exactly 8 hourly rows, weekend days
    contribute none. -/
theorem batchRows_length (d0 days : Nat) (subject teacher : String) :
    (batchRows d0 days subject teacher).length
      = 8 * ((List.range days).filter (fun i => !isWeekend (d0 + i))).length := by
  unfold batchRows
  induction List.range days with
  | nil => rfl
  | cons i rest ih =>
    rw [List.flatMap_cons, List.filter_cons]
    cases hw : isWeekend (d0 + i) with
    | true => simp [hw, ih]
    | false =>
      simp [hw, ih]
      omega

/-- Every generated row belongs to a non-weekend day within the range and
    carries one of the 8 hourly times. -/
theorem batchRows_mem (d0 days : Nat) (subject teacher : String) (r : NewRowData)
    (hr : r ∈ batchRows d0 days subject teacher) :
    ∃ i, i < days ∧ isWeekend (d0 + i) = false ∧
      ∃ h, h < 8 ∧
        r = { date := formatDay (d0 + i), time := toString (10 + h) ++ ":00",
              subject := subject, teacher := teacher } := by
  unfold batchRows at hr
  rw [List.mem_flatMap] at hr
  obtain ⟨i, hi, hmem⟩ := hr
  rw [List.mem_range] at hi
  cases hw : isWeekend (d0 + i) with
  | true => rw [if_pos (by rw [hw])] at hmem; cases hmem
  | false =>
    rw [if_neg (by rw [hw]; exact Bool.false_ne_true)] at hmem
    rw [List.mem_map] at hmem
    obtain ⟨h, hh, rfl⟩ := hmem
    exact ⟨i, hi, hw, h, List.mem_range.mp hh, rfl⟩

/-- Claim C5: for every start date that parses and every day count, the
    batch scheduler generates 8 hourly rows (10:00 up to and excluding
    18:00) per non-weekend day among the `days` consecutive calendar days,
    skipping Saturdays and Sundays of the fixed civil calendar, submits
    them as one bulk append and reports the number of rows created; in
    particular, starting Monday 2025-06-02 for 7 days yields exactly 40
    rows, none dated 2025-06-07 or 2025-06-08. -/
theorem createBatchSchedule_spec :
    (∀ (d0 days : Nat) (subject teacher : String),
        (batchRows d0 days subject teacher).length
          = 8 * ((List.range days).filter (fun i => !isWeekend (d0 + i))).length) ∧
    (∀ (d0 days : Nat) (subject teacher : String) (r : NewRowData),
        r ∈ batchRows d0 days subject teacher →
        ∃ i, i < days ∧ isWeekend (d0 + i) = false ∧
          ∃ h, h < 8 ∧
            r = { date := formatDay (d0 + i), time := toString (10 + h) ++ ":00",
                  subject := subject, teacher := teacher }) ∧
    (∀ (store : List SheetRow) (startDate : String) (days : Nat)
        (subject teacher : String) (d0 : Nat),
        parseDate startDate = some d0 →
        createBatchSchedule store startDate days subject teacher
          = .ok (appendRows store (batchRows d0 days subject teacher),
                 batchMessage (batchRows d0 days subject teacher).length startDate)) ∧
    (∃ rows msg,
        createBatchSchedule [] ("2025-06-02") 7 ("Math") ("Tan") = .ok (rows, msg) ∧
        rows.length = 40 ∧
        msg = batchMessage 40 ("2025-06-02") ∧
        ∀ r ∈ rows, r.date ≠ some ("2025-06-07") ∧ r.date ≠ some ("2025-06-08")) := by
  refine ⟨batchRows_length, batchRows_mem, ?_, ?_⟩
  · intro store startDate days subject teacher d0 hparse
    simp [createBatchSchedule, hparse]
  · refine ⟨appendRows [] (batchRows 739709 7 ("Math") ("Tan")),
      batchMessage (batchRows 739709 7 ("Math") ("Tan")).length ("2025-06-02"),
      rfl, by decide, by decide, by decide⟩

/-- Witness for claim C5: the concrete Monday start 2025-06-02 (civil day
    739709) for 7 days, showing the parse hypothesis discharged and the
    bulk-append result. -/
theorem createBatchSchedule_spec_witness :
    createBatchSchedule [] ("2025-06-02") 7 ("Math") ("Tan")
      = .ok (appendRows [] (batchRows 739709 7 ("Math") ("Tan")),
             batchMessage (batchRows 739709 7 ("Math") ("Tan")).length ("2025-06-02")) :=
  createBatchSchedule_spec.2.2.1 [] ("2025-06-02") 7 ("Math") ("Tan") 739709 (by decide)

/-! ## Claim C8 — context retrieval is best-effort -/

/-- A request whose message list is nonempty always reaches the provider
    and returns a successful response object. -/
theorem chatPOST_ok_of_getLast (provider : List Msg → ProviderResponse)
    (adminPassword : Option String) (embedContent : String → Except String (List Int))
    (matchDocuments : List Int → Rat → Nat → Except String (List MatchDoc))
    (now : String) (store : List SheetRow) (messages : List Msg) (m : Msg)
    (h : messages.getLast? = some m) :
    ∃ result,
      chatPOST provider adminPassword embedContent matchDocuments now store messages
        = .ok result := by
  simp only [chatPOST, h]
  exact ⟨_, rfl⟩

/-- Claim C8: context retrieval is total (never raises): a failing
    embedding call, a failing knowledge-store query and an empty match
    list each yield the empty context string, and the chat request still
    succeeds in the failure cases; a successful query yields the matched
    entries' contents joined by blank lines, taken from the store call
    with the fixed threshold 0.5 and match count 3. -/
theorem retrieveContext_best_effort :
    (∀ (e : String) (matchDocuments : List Int → Rat → Nat → Except String (List MatchDoc))
        (query : String),
      retrieveContext (fun _ => .error e) matchDocuments query = "") ∧
    (∀ (embedding : String → List Int) (e query : String),
      retrieveContext (fun q => .ok (embedding q)) (fun _ _ _ => .error e) query = "") ∧
    (∀ (embedding : String → List Int) (query : String),
      retrieveContext (fun q => .ok (embedding q)) (fun _ _ _ => .ok []) query = "") ∧
    (∀ (embedding : String → List Int) (d : MatchDoc) (ds : List MatchDoc) (query : String),
      retrieveContext (fun q => .ok (embedding q)) (fun _ _ _ => .ok (d :: ds)) query
        = String.intercalate ("\n\n") ((d :: ds).map MatchDoc.content)) ∧
    (∀ (provider : List Msg → ProviderResponse) (adminPassword : Option String)
        (e now : String) (store : List SheetRow)
        (matchDocuments : List Int → Rat → Nat → Except String (List MatchDoc))
        (messages : List Msg) (content : String),
      ∃ result,
        chatPOST provider adminPassword (fun _ => .error e) matchDocuments now store
            (messages ++ [Msg.user content])
          = .ok result) ∧
    (∀ (provider : List Msg → ProviderResponse) (adminPassword : Option String)
        (embedding : String → List Int) (e now : String) (store : List SheetRow)
        (messages : List Msg) (content : String),
      ∃ result,
        chatPOST provider adminPassword (fun q => .ok (embedding q)) (fun _ _ _ => .error e)
            now store (messages ++ [Msg.user content])
          = .ok result) := by
  refine ⟨?_, ?_, ?_, ?_, ?_, ?_⟩
  · intro e md query; rfl
  · intro emb e query; rfl
  · intro emb query; rfl
  · intro emb d ds query; simp [retrieveContext]
  · intro provider adminPassword e now store md messages content
    exact chatPOST_ok_of_getLast _ _ _ _ _ _ _ (Msg.user content) (by simp)
  · intro provider adminPassword emb e now store messages content
    exact chatPOST_ok_of_getLast _ _ _ _ _ _ _ (Msg.user content) (by simp)

/-! ## Claim C9 — knowledge sync -/

/-- Claim C9 counterexample: a failing embedding call is not caught by the
    per-item step — it aborts the whole job with a 500 error, so the
    remaining pairs are never processed and no success count is reported,
    contradicting the claim that embedding failures are logged and
    skipped. -/
theorem sync_embedding_failure_aborts :
    syncGET [{ question := "q1", answer := "a1" }, { question := "q2", answer := "a2" }]
        none (fun _ => .error ("embedding provider unavailable")) (fun _ _ _ => none)
      = .error ("embedding provider unavailable", 500) := by
  rfl

/-- Claim C9 (amended): pairs missing a question or an answer are skipped;
    when the embedding provider does not throw, each individual insert
    failure is skipped without aborting the remaining pairs and the job
    reports the total count of successfully inserted documents; a thrown
    embedding failure, however, aborts the job with an error response. -/
theorem sync_insert_failures_skipped :
    (∀ (embedValues : String → Option (List Int))
        (insertDocument : String → List Int → String → Option String)
        (knowledge : List KnowledgeBaseEntry) (count : Nat),
      syncLoop (fun c => .ok (embedValues c)) insertDocument knowledge count
        = .ok (count + syncSuccessCount embedValues insertDocument knowledge)) ∧
    (∀ (embedValues : String → Option (List Int))
        (insertDocument : String → List Int → String → Option String)
        (deleteError : Option String) (item : KnowledgeBaseEntry)
        (rest : List KnowledgeBaseEntry),
      syncGET (item :: rest) deleteError (fun c => .ok (embedValues c)) insertDocument
        = .ok ("Successfully synced "
            ++ toString (syncSuccessCount embedValues insertDocument (item :: rest))
            ++ " items from Google Sheets to Supabase.")) ∧
    (∀ (e : String) (insertDocument : String → List Int → String → Option String)
        (deleteError : Option String) (item : KnowledgeBaseEntry)
        (rest : List KnowledgeBaseEntry),
      item.question ≠ "" → item.answer ≠ "" →
      syncGET (item :: rest) deleteError (fun _ => .error e) insertDocument
        = .error (e, 500)) := by
  have hloop : ∀ (embedValues : String → Option (List Int))
      (insertDocument : String → List Int → String → Option String)
      (knowledge : List KnowledgeBaseEntry) (count : Nat),
      syncLoop (fun c => .ok (embedValues c)) insertDocument knowledge count
        = .ok (count + syncSuccessCount embedValues insertDocument knowledge) := by
    intro embedValues insertDocument knowledge
    induction knowledge with
    | nil => intro count; simp [syncLoop, syncSuccessCount]
    | cons item rest ih =>
      intro count
      by_cases hq : item.question = ""
      · simp [syncLoop, hq, syncSuccessCount, List.filter_cons, ih]
      · by_cases ha : item.answer = ""
        · simp [syncLoop, hq, ha, syncSuccessCount, List.filter_cons, ih]
        · cases hins : insertDocument (syncContent item)
              ((embedValues (syncContent item)).getD []) item.question with
          | some err =>
            simp [syncLoop, hq, ha, hins, syncSuccessCount, List.filter_cons, ih]
          | none =>
            simp [syncLoop, hq, ha, hins, syncSuccessCount, List.filter_cons, ih]
            omega
  refine ⟨hloop, ?_, ?_⟩
  · intro embedValues insertDocument deleteError item rest
    simp [syncGET, hloop]
  · intro e insertDocument deleteError item rest hq ha
    simp [syncGET, syncLoop, hq, ha]

/-- Witness for claim C9 (amended): one blank pair, one pair whose insert
    fails and one that succeeds give a reported count of 1; a throwing
    embedding provider aborts with a 500. -/
theorem sync_insert_failures_skipped_witness :
    syncGET [{ question := "q1", answer := "" },
             { question := "q2", answer := "a2" },
             { question := "q3", answer := "a3" }]
        none (fun _ => .ok (some [1]))
        (fun content _ _ => if content = syncContent { question := "q2", answer := "a2" }
          then some ("insert failed") else none)
      = .ok ("Successfully synced "
          ++ toString (syncSuccessCount (fun _ => some [1])
                (fun content _ _ => if content = syncContent { question := "q2", answer := "a2" }
                  then some ("insert failed") else none)
                [{ question := "q1", answer := "" },
                 { question := "q2", answer := "a2" },
                 { question := "q3", answer := "a3" }])
          ++ " items from Google Sheets to Supabase.") ∧
    syncGET [{ question := "q", answer := "a" }] none
        (fun _ => .error ("embedding down")) (fun _ _ _ => none)
      = .error ("embedding down", 500) :=
  ⟨sync_insert_failures_skipped.2.1 (fun _ => some [1])
      (fun content _ _ => if content = syncContent { question := "q2", answer := "a2" }
        then some ("insert failed") else none)
      none { question := "q1", answer := "" }
      [{ question := "q2", answer := "a2" }, { question := "q3", answer := "a3" }],
   sync_insert_failures_skipped.2.2 ("embedding down") (fun _ _ _ => none) none
      { question := "q", answer := "a" } [] (by decide) (by decide)⟩
